import Mathlib

/-!
Verification development for the SEO content-brief generator
(`src/app.py`, class `SEOContentBriefGenerator`).

The Python functions are shallowly embedded as Lean definitions:

* an HTML document reaches the heading extractor as the ordered list of its
  heading elements, each a pair `(level, raw text)` — this is exactly what
  `BeautifulSoup.find_all` exposes of the document to `extract_headings_from_url`;
* the network is modelled by a `fetch` function returning `Except`: the
  `error` case stands for any exception raised while fetching or parsing a
  page (the code's `try/except` around `requests.get` + `BeautifulSoup`);
* Python `None`-or-falsy inputs are modelled by `Option` with `none` for the
  falsy case;
* Python dicts with the fixed keys `h1..h6` (resp. the four intent labels)
  are structures (resp. functions from the label strings to scores).
-/

set_option maxHeartbeats 1000000

namespace SeoApp

/-- Python `str.strip()`: drop leading and trailing whitespace. -/
def pyStrip (s : String) : String :=
  ⟨((s.toList.dropWhile Char.isWhitespace).reverse.dropWhile Char.isWhitespace).reverse⟩

/-- Python `str.lower()` (ASCII). -/
def pyLower (s : String) : String :=
  ⟨s.data.map Char.toLower⟩

/-- The maximal runs of characters satisfying `keep` (`acc` holds the
current run reversed). -/
def runsBy (keep : Char → Bool) : List Char → List Char → List String
  | acc, [] => if acc.isEmpty then [] else [⟨acc.reverse⟩]
  | acc, c :: cs =>
      if keep c then runsBy keep (c :: acc) cs
      else if acc.isEmpty then runsBy keep [] cs
      else ⟨acc.reverse⟩ :: runsBy keep [] cs

/-- `needle` occurs at the very start of `hay`. -/
def leadMatch : List Char → List Char → Bool
  | [], _ => true
  | _ :: _, [] => false
  | x :: xs, y :: ys => x = y && leadMatch xs ys

/-- `needle` occurs somewhere in `hay` (Python's `needle in hay` on strings). -/
def occursIn (needle : List Char) : List Char → Bool
  | [] => leadMatch needle []
  | c :: t => leadMatch needle (c :: t) || occursIn needle t

/-- Python substring test `needle in hay`. -/
def strOccurs (needle hay : String) : Bool :=
  occursIn needle.toList hay.toList

/-- One organic search result as `collect_serp_data` normalizes it. -/
structure OrganicResult where
  title : String
  meta_description : String
  url : String
  position : Nat
deriving DecidableEq

/-- The normalized SERP data dict built by `collect_serp_data`. -/
structure SerpData where
  keyword : String
  organic_results : List OrganicResult
  paa_questions : List String

/-- The `intent_keywords` dict of `analyze_search_intent`, in insertion order. -/
def intent_keywords : List (String × List String) :=
  [("informational", ["how to", "what is", "why", "guide", "tutorial", "ways to", "tips", "learn"]),
   ("commercial", ["best", "review", "comparison", "vs", "top", "rating", "buy"]),
   ("transactional", ["buy", "purchase", "order", "deal", "discount", "cheap", "price"]),
   ("navigational", ["login", "signin", "official", "website", "app", "download"])]

/-- The four intent labels in the dict's insertion (= iteration) order. -/
def intentOrder : List String :=
  ["informational", "commercial", "transactional", "navigational"]

/-- The keyword list of one category (`[]` for an unknown label). -/
def keywordsFor (cat : String) : List String :=
  (((intent_keywords.find? (fun p => p.1 == cat)).map Prod.snd).getD [])

/-- `intent_scores[cat] += 1`, the dict held as a function. -/
def bump (scores : String → Nat) (cat : String) : String → Nat :=
  fun j => if j = cat then scores j + 1 else scores j

/-- The inner two loops of `analyze_search_intent`: for every category and
every keyword of that category, add one when the keyword occurs in `text`. -/
def scoreSnippet (text : String) (scores : String → Nat) : String → Nat :=
  intent_keywords.foldl
    (fun acc p =>
      p.2.foldl (fun acc2 kw => if strOccurs kw text then bump acc2 p.1 else acc2) acc)
    scores

/-- The text analyzed for one result: `(title + " " + meta_description).lower()`. -/
def snippetOf (r : OrganicResult) : String :=
  pyLower (r.title ++ " " ++ r.meta_description)

/-- The `intent_scores` dict after the scoring loop of `analyze_search_intent`. -/
def intent_scores_of (results : List OrganicResult) : String → Nat :=
  results.foldl (fun acc r => scoreSnippet (snippetOf r) acc) (fun _ => 0)

/-- Python `max(keys, key=val)`: the first key attaining the maximal value
(a later key replaces the running best only when strictly greater). -/
def pythonMax (keys : List String) (val : String → Nat) : String :=
  match keys with
  | [] => ""
  | k :: ks => ks.foldl (fun best k2 => if val k2 > val best then k2 else best) k

/-- `dominant_intent = max(intent_scores, key=intent_scores.get)`; the dict
iterates in insertion order `intentOrder`. -/
def dominant_intent_of (results : List OrganicResult) : String :=
  pythonMax intentOrder (intent_scores_of results)

/-- Transcribed from the spec's words for the tie-break contract: try the
categories in the fixed order informational, commercial, transactional,
navigational and keep the first whose score is at least every other score. -/
def specFirstMax (val : String → Nat) : String :=
  if val "informational" ≥ val "commercial" ∧ val "informational" ≥ val "transactional" ∧
      val "informational" ≥ val "navigational" then "informational"
  else if val "commercial" ≥ val "transactional" ∧ val "commercial" ≥ val "navigational" then
    "commercial"
  else if val "transactional" ≥ val "navigational" then "transactional"
  else "navigational"

/-- A character of Python's `\w` class (the analyzed text is ASCII-lowered first). -/
def isWordChar (c : Char) : Bool :=
  c.isAlphanum || c = '_'

/-- Python `re.findall(r'\b\w+\b', s)`: the maximal word-character runs of `s`. -/
def pyWords (s : String) : List String :=
  runsBy isWordChar [] s.toList

/-- Add one occurrence of `w` to a count list kept in first-occurrence order
(the behavior of `collections.Counter` fed one element). -/
def bumpCount : List (String × Nat) → String → List (String × Nat)
  | [], w => [(w, 1)]
  | (x, n) :: rest, w => if x = w then (x, n + 1) :: rest else (x, n) :: bumpCount rest w

/-- The `Counter` of a word list, entries in first-occurrence order. -/
def countsOf (ws : List String) : List (String × Nat) :=
  ws.foldl bumpCount []

/-- Stable descending insertion by count (ties keep the existing order). -/
def insertByCount (x : String × Nat) : List (String × Nat) → List (String × Nat)
  | [] => [x]
  | y :: ys => if x.2 ≥ y.2 then x :: y :: ys else y :: insertByCount x ys

/-- Stable sort by count, descending: the order `Counter.most_common` uses
(count descending, ties in first-occurrence order). -/
def sortByCountDesc (l : List (String × Nat)) : List (String × Nat) :=
  l.foldr insertByCount []

/-- `collections.Counter(ws).most_common(n)`. -/
def most_common (n : Nat) (ws : List String) : List (String × Nat) :=
  (sortByCountDesc (countsOf ws)).take n

/-- Helper for `urlPath`: the characters after the first "://", if any. -/
def afterSchemeMark : List Char → Option (List Char)
  | [] => none
  | c :: cs => if leadMatch [':', '/', '/'] (c :: cs) then some (cs.drop 2) else afterSchemeMark cs

/-- Models `urllib.parse.urlparse(url).path` for the absolute http(s) URLs the
SERP provider returns: everything from the first slash after the host; a URL
with no "://" is all path. Queries and fragments do not occur in these inputs. -/
def urlPath (url : String) : String :=
  match afterSchemeMark url.toList with
  | some rest => ⟨rest.dropWhile (fun c => c ≠ '/')⟩
  | none => url

/-- `[part for part in parsed_url.path.split('/') if part]`: splitting on
slashes and dropping empty pieces is taking the maximal slash-free runs. -/
def path_parts (url : String) : List String :=
  runsBy (fun c => c != '/') [] (urlPath url).toList

/-- The dict `analyze_search_intent` returns. `intent_scores` is the score
dict as a function on the label strings. -/
structure IntentAnalysis where
  dominant_intent : String
  intent_scores : String → Nat
  common_title_words : List (String × Nat)
  common_description_words : List (String × Nat)
  common_url_patterns : List (String × Nat)
  paa_questions : List String

/-- `analyze_search_intent(serp_data)`: `None` for falsy input, otherwise the
analysis dict. -/
def analyze_search_intent (serp : Option SerpData) : Option IntentAnalysis :=
  match serp with
  | none => none
  | some sd =>
      some { dominant_intent := dominant_intent_of sd.organic_results
             intent_scores := intent_scores_of sd.organic_results
             common_title_words :=
               most_common 10 (pyWords (pyLower
                 (String.intercalate " " (sd.organic_results.map (fun r => r.title)))))
             common_description_words :=
               most_common 10 (pyWords (pyLower
                 (String.intercalate " " (sd.organic_results.map (fun r => r.meta_description)))))
             common_url_patterns :=
               most_common 5 (sd.organic_results.foldl (fun acc r => acc ++ path_parts r.url) [])
             paa_questions := sd.paa_questions }

/-- The `headings` dict `{"h1": [...], ..., "h6": [...]}` of
`extract_headings_from_url`. -/
structure HeadingsByLevel where
  h1 : List String
  h2 : List String
  h3 : List String
  h4 : List String
  h5 : List String
  h6 : List String
deriving DecidableEq

/-- The empty headings dict returned on a failed fetch or parse. -/
def emptyHeadings : HeadingsByLevel :=
  ⟨[], [], [], [], [], []⟩

/-- The inner loop of `extract_headings_from_url` for one tag level: every
element of that level in document order, its text stripped, empties dropped. -/
def collectLevel (lvl : Nat) (doc : List (Nat × String)) : List String :=
  doc.filterMap (fun p =>
    if p.1 = lvl then (let t := pyStrip p.2; if t = "" then none else some t) else none)

/-- The parsing part of `extract_headings_from_url`: iterate the dict keys
`h1..h6` and, for each, collect that level's headings from the document. -/
def extract_headings (doc : List (Nat × String)) : HeadingsByLevel :=
  { h1 := collectLevel 1 doc, h2 := collectLevel 2 doc, h3 := collectLevel 3 doc,
    h4 := collectLevel 4 doc, h5 := collectLevel 5 doc, h6 := collectLevel 6 doc }

/-- The headings dict flattened in its iteration order `h1, h2, ..., h6`,
each text tagged with its level. -/
def headingsToList (h : HeadingsByLevel) : List (Nat × String) :=
  h.h1.map (fun t => (1, t)) ++ h.h2.map (fun t => (2, t)) ++ h.h3.map (fun t => (3, t)) ++
    h.h4.map (fun t => (4, t)) ++ h.h5.map (fun t => (5, t)) ++ h.h6.map (fun t => (6, t))

/-- Transcribed from the claimed output description of the Heading Extractor:
all level-1 headings first in document order, then all level-2, ... through
level 6, each text trimmed, texts empty after trimming dropped. -/
def specGroupedHeadings (doc : List (Nat × String)) : List (Nat × String) :=
  (((doc.filter (fun p => p.1 = 1)).map (fun p => pyStrip p.2)).filter
      (fun t => t ≠ "")).map (fun t => ((1 : Nat), t)) ++
  (((doc.filter (fun p => p.1 = 2)).map (fun p => pyStrip p.2)).filter
      (fun t => t ≠ "")).map (fun t => ((2 : Nat), t)) ++
  (((doc.filter (fun p => p.1 = 3)).map (fun p => pyStrip p.2)).filter
      (fun t => t ≠ "")).map (fun t => ((3 : Nat), t)) ++
  (((doc.filter (fun p => p.1 = 4)).map (fun p => pyStrip p.2)).filter
      (fun t => t ≠ "")).map (fun t => ((4 : Nat), t)) ++
  (((doc.filter (fun p => p.1 = 5)).map (fun p => pyStrip p.2)).filter
      (fun t => t ≠ "")).map (fun t => ((5 : Nat), t)) ++
  (((doc.filter (fun p => p.1 = 6)).map (fun p => pyStrip p.2)).filter
      (fun t => t ≠ "")).map (fun t => ((6 : Nat), t))

/-- `extract_headings_from_url`: the fetched-and-parsed document arrives as
`Except`, whose `error` case stands for any exception raised while fetching
or parsing; the `except` branch returns the empty dict. -/
def extract_headings_from_url (page : Except String (List (Nat × String))) : HeadingsByLevel :=
  match page with
  | .ok doc => extract_headings doc
  | .error _ => emptyHeadings

/-- `extract_competitor_headings(serp_data)`: `None` on falsy input, else one
`url → headings` entry per organic result, in result order; each page's
document is obtained through the caller's `fetch`. -/
def extract_competitor_headings (serp : Option SerpData)
    (fetch : String → Except String (List (Nat × String))) :
    Option (List (String × HeadingsByLevel)) :=
  match serp with
  | none => none
  | some sd =>
      some (sd.organic_results.foldl
        (fun acc r => acc ++ [(r.url, extract_headings_from_url (fetch r.url))]) [])

/-- The `common_headings` dict of `analyze_competitor_headings`: a level's key
is present only when that level has at least one heading. -/
structure CommonHeadings where
  h1 : Option (List (String × Nat))
  h2 : Option (List (String × Nat))
  h3 : Option (List (String × Nat))
  h4 : Option (List (String × Nat))
  h5 : Option (List (String × Nat))
  h6 : Option (List (String × Nat))

/-- The empty `common_headings` dict. -/
def emptyCommonHeadings : CommonHeadings :=
  ⟨none, none, none, none, none, none⟩

/-- One level of `analyze_competitor_headings`: `most_common(10)` of the
pooled headings when the level is nonempty, otherwise no entry. -/
def levelCommon (l : List String) : Option (List (String × Nat)) :=
  if l.isEmpty then none else some (most_common 10 l)

/-- The dict `analyze_competitor_headings` returns. -/
structure HeadingsAnalysis where
  all_headings : HeadingsByLevel
  common_headings : CommonHeadings

/-- `analyze_competitor_headings`: `None` when no competitor pages were
collected; otherwise pool the per-page headings per level and take the ten
most common of each nonempty level. -/
def analyze_competitor_headings (competitor : List (String × HeadingsByLevel)) :
    Option HeadingsAnalysis :=
  if competitor.isEmpty then none
  else
    let all := competitor.foldl
      (fun acc p =>
        { h1 := acc.h1 ++ p.2.h1, h2 := acc.h2 ++ p.2.h2, h3 := acc.h3 ++ p.2.h3,
          h4 := acc.h4 ++ p.2.h4, h5 := acc.h5 ++ p.2.h5, h6 := acc.h6 ++ p.2.h6 })
      emptyHeadings
    some { all_headings := all
           common_headings :=
             { h1 := levelCommon all.h1, h2 := levelCommon all.h2, h3 := levelCommon all.h3,
               h4 := levelCommon all.h4, h5 := levelCommon all.h5, h6 := levelCommon all.h6 } }

/-- The `power_words` dict of `_generate_title_suggestion`. -/
def power_words : List (String × List String) :=
  [("informational", ["Ultimate", "Complete", "Comprehensive", "Definitive", "Essential"]),
   ("commercial", ["Best", "Top", "Premium", "Review", "Comparison"]),
   ("transactional", ["Buy", "Purchase", "Deal", "Discount", "Affordable"]),
   ("navigational", ["Official", "Login", "Access", "Download", "Sign Up"])]

/-- `power_words.get(dominant_intent, ["Guide"])[0]`. -/
def powerWordOf (dominant : String) : String :=
  ((((power_words.find? (fun p => p.1 == dominant)).map Prod.snd).getD ["Guide"]).headD "")

/-- Helper for `pyTitleCase`: the flag records whether the previous character
was a letter. -/
def pyTitleGo : Bool → List Char → List Char
  | _, [] => []
  | prevAlpha, c :: cs =>
      if c.isAlpha then (if prevAlpha then c.toLower else c.toUpper) :: pyTitleGo true cs
      else c :: pyTitleGo false cs

/-- Python `str.title()` (ASCII): uppercase each letter that follows a
non-letter, lowercase the rest. -/
def pyTitleCase (s : String) : String :=
  ⟨pyTitleGo false s.toList⟩

/-- Python `keyword.split()`: split on whitespace, dropping empty pieces —
the maximal whitespace-free runs. -/
def splitWhitespace (s : String) : List String :=
  runsBy (fun c => !c.isWhitespace) [] s.toList

/-- `_generate_title_suggestion(keyword, intent_analysis)`. -/
def _generate_title_suggestion (keyword : String) (ia : IntentAnalysis) : String :=
  let power_word := powerWordOf ia.dominant_intent
  let kwLower := (splitWhitespace keyword).map pyLower
  let common_words := ((ia.common_title_words.take 3).map Prod.fst).filter
    (fun w => ¬ (kwLower.contains (pyLower w)))
  if common_words.isEmpty then
    power_word ++ " Guide to " ++ keyword ++ ": Everything You Need to Know"
  else
    power_word ++ " " ++ pyTitleCase (common_words.headD "") ++ " for " ++ keyword ++ ": " ++
      (if common_words.length > 1 then pyTitleCase (common_words.getD 1 "") else "Complete") ++
      " Guide"

/-- The intent-keyed meta-description template of
`_generate_meta_description_suggestion`, before the length cap. -/
def metaTemplate (keyword : String) (ia : IntentAnalysis) : String :=
  let common_words := (ia.common_description_words.take 5).map Prod.fst
  if ia.dominant_intent = "informational" then
    "Looking for information about " ++ keyword ++
      "? Our comprehensive guide covers everything you need to know. Learn about " ++
      String.intercalate ", " (common_words.take 3) ++ " and more."
  else if ia.dominant_intent = "commercial" then
    "Searching for the best " ++ keyword ++
      "? We've reviewed and compared the top options. Find out which " ++
      common_words.headD "product" ++ " is right for you."
  else if ia.dominant_intent = "transactional" then
    "Ready to buy " ++ keyword ++ "? Find the best deals and prices on " ++
      common_words.headD "quality products" ++ ". Shop now and save!"
  else
    "Looking for the official " ++ keyword ++ " website? Find direct access to " ++
      (if common_words.isEmpty then "the resources you need"
       else String.intercalate ", " (common_words.take 2)) ++ " here."

/-- `_generate_meta_description_suggestion`: the template, truncated to
`meta_desc[:157] + "..."` when longer than 160 characters. -/
def _generate_meta_description_suggestion (keyword : String) (ia : IntentAnalysis) : String :=
  let meta := metaTemplate keyword ia
  if meta.length > 160 then ⟨meta.data.take 157⟩ ++ "..." else meta

/-- A `{"h3": ..., "content": ...}` subsection dict of the content outline. -/
structure OutlineSubsection where
  h3 : String
  content : String
deriving DecidableEq

/-- A section dict of the content outline; a section without the
`"subsections"` key is modelled with the empty list. -/
structure OutlineSection where
  h2 : String
  content : String
  subsections : List OutlineSubsection
deriving DecidableEq

/-- The `{"h1": ..., "sections": [...]}` outline dict. -/
structure ContentOutline where
  h1 : String
  sections : List OutlineSection
deriving DecidableEq

/-- The informational branch's fixed sections in `_generate_content_outline`. -/
def informationalSections (keyword : String) : List OutlineSection :=
  [⟨"What Is " ++ keyword ++ "?", "Definition and basic explanation of the concept.",
     [⟨"Key Components of " ++ keyword, "Break down the main elements."⟩,
      ⟨"How " ++ keyword ++ " Works", "Explanation of the mechanism or process."⟩]⟩,
   ⟨"Benefits of " ++ keyword, "List and explain the main advantages.",
     [⟨"Primary Benefits", "Most important advantages."⟩,
      ⟨"Secondary Benefits", "Additional advantages."⟩]⟩,
   ⟨"Common Challenges with " ++ keyword,
     "Discuss potential issues and how to overcome them.", []⟩]

/-- The commercial branch's fixed sections. -/
def commercialSections (keyword : String) : List OutlineSection :=
  [⟨"Top " ++ keyword ++ " Options", "Overview of the best products/services in this category.",
     [⟨"Best Overall", "Top recommendation and why."⟩,
      ⟨"Best Value", "Best option for the price."⟩,
      ⟨"Premium Choice", "High-end option for those with bigger budgets."⟩]⟩,
   ⟨"Comparison of " ++ keyword ++ " Features", "Side-by-side comparison of key features.",
     [⟨"Feature Comparison Table", "Visual comparison of products."⟩,
      ⟨"Performance Analysis", "How each option performs."⟩]⟩,
   ⟨"Pros and Cons", "Detailed list of advantages and disadvantages for each option.", []⟩]

/-- The transactional branch's fixed sections. -/
def transactionalSections (keyword : String) : List OutlineSection :=
  [⟨"Where to Buy " ++ keyword, "Best places to purchase this product/service.",
     [⟨"Official Retailers", "Authorized sellers."⟩,
      ⟨"Online Marketplaces", "E-commerce options."⟩]⟩,
   ⟨"Current Deals and Discounts", "Latest promotions and special offers.",
     [⟨"Seasonal Sales", "Holiday and event-based discounts."⟩,
      ⟨"Coupon Codes", "Available promo codes."⟩]⟩,
   ⟨"Price Comparison", "Compare prices across different retailers.", []⟩]

/-- The navigational branch's fixed sections. -/
def navigationalSections (keyword : String) : List OutlineSection :=
  [⟨"How to Access " ++ keyword, "Step-by-step instructions to reach the destination.",
     [⟨"Direct Link", "Official URL."⟩,
      ⟨"Alternative Access Methods", "Other ways to reach the site/service."⟩]⟩,
   ⟨"Account Setup", "How to create an account if needed.", []⟩,
   ⟨"Troubleshooting Access Issues", "Common problems and solutions.", []⟩]

/-- The common-h2 loop: append a section per pooled competitor h2 unless a
section with that exact h2 already exists. -/
def appendCommonH2s (keyword : String) (secs : List OutlineSection) (hs : List String) :
    List OutlineSection :=
  hs.foldl
    (fun acc h =>
      if acc.any (fun s => s.h2 == h) then acc
      else acc ++ [⟨h, "Cover this important aspect of " ++ keyword, []⟩])
    secs

/-- `_generate_content_outline(keyword, intent_analysis, headings_analysis)`. -/
def _generate_content_outline (keyword : String) (ia : IntentAnalysis)
    (ha : Option HeadingsAnalysis) : ContentOutline :=
  let common_h2s :=
    match ha with
    | none => []
    | some a =>
        match a.common_headings.h2 with
        | none => []
        | some l => (l.take 5).map Prod.fst
  let intro : OutlineSection :=
    ⟨"Introduction to " ++ keyword,
      "Brief overview of what the article will cover and why the topic is important.", []⟩
  let secs :=
    if ia.dominant_intent = "informational" then
      appendCommonH2s keyword ([intro] ++ informationalSections keyword) common_h2s ++
        [⟨"Conclusion", "Summarize key points and provide final thoughts.", []⟩]
    else if ia.dominant_intent = "commercial" then
      appendCommonH2s keyword ([intro] ++ commercialSections keyword) common_h2s ++
        [⟨"Final Recommendation", "Clear recommendation based on different use cases and needs.",
          []⟩]
    else if ia.dominant_intent = "transactional" then
      appendCommonH2s keyword ([intro] ++ transactionalSections keyword) common_h2s ++
        [⟨"Best Value for Money", "Final recommendation on where to get the best deal.", []⟩]
    else
      appendCommonH2s keyword ([intro] ++ navigationalSections keyword) common_h2s ++
        [⟨"Getting Started", "Next steps after accessing the site/service.", []⟩]
  ⟨"The Ultimate Guide to " ++ keyword, secs⟩

/-- One `{"question": ..., "answer": ...}` entry of the FAQ section. -/
structure FaqEntry where
  question : String
  answer : String
deriving DecidableEq

/-- The `{"h2": ..., "questions": [...]}` dict `_generate_faq_section` returns. -/
structure FaqSection where
  h2 : String
  questions : List FaqEntry
deriving DecidableEq

/-- `_generate_faq_section(paa_questions)`: always the section headed
"Frequently Asked Questions", holding one entry per question of
`paa_questions[:5]` with a fixed placeholder answer. -/
def _generate_faq_section (paa_questions : List String) : FaqSection :=
  if paa_questions.isEmpty then ⟨"Frequently Asked Questions", []⟩
  else
    ⟨"Frequently Asked Questions",
      (paa_questions.take 5).map (fun q =>
        ⟨q, "Provide a comprehensive answer to this question based on research and expertise."⟩)⟩

/-- First-occurrence deduplication. -/
def dedupFirst (l : List String) : List String :=
  l.foldl (fun acc w => if acc.contains w then acc else acc ++ [w]) []

/-- `_extract_key_topics`: the top title words, description words and pooled
h2 headings. The Python code finishes with `list(set(key_topics))`, whose
order is unspecified; it is modelled as first-occurrence deduplication. -/
def _extract_key_topics (ia : IntentAnalysis) (ha : Option HeadingsAnalysis) : List String :=
  let title_words := (ia.common_title_words.take 5).map Prod.fst
  let desc_words := (ia.common_description_words.take 5).map Prod.fst
  let h2s :=
    match ha with
    | none => []
    | some a =>
        match a.common_headings.h2 with
        | none => []
        | some l => (l.take 5).map Prod.fst
  dedupFirst (title_words ++ desc_words ++ h2s)

/-- The content-brief dict `generate_content_brief` assembles. -/
structure ContentBrief where
  keyword : String
  title_suggestion : String
  meta_description_suggestion : String
  dominant_intent : String
  intent_scores : String → Nat
  content_outline : ContentOutline
  faq_section : FaqSection
  key_topics : List String
  common_title_words : List (String × Nat)
  common_description_words : List (String × Nat)
  common_url_patterns : List (String × Nat)
  competitor_common_headings : CommonHeadings

/-- `generate_content_brief(keyword, serp_data, intent_analysis,
headings_analysis)`: `None` when `serp_data` or `intent_analysis` is falsy,
otherwise the assembled brief. -/
def generate_content_brief (keyword : String) (serp : Option SerpData)
    (ia : Option IntentAnalysis) (ha : Option HeadingsAnalysis) : Option ContentBrief :=
  match serp, ia with
  | some _, some intent =>
      some { keyword := keyword
             title_suggestion := _generate_title_suggestion keyword intent
             meta_description_suggestion := _generate_meta_description_suggestion keyword intent
             dominant_intent := intent.dominant_intent
             intent_scores := intent.intent_scores
             content_outline := _generate_content_outline keyword intent ha
             faq_section := _generate_faq_section intent.paa_questions
             key_topics := _extract_key_topics intent ha
             common_title_words := intent.common_title_words
             common_description_words := intent.common_description_words
             common_url_patterns := intent.common_url_patterns
             competitor_common_headings :=
               match ha with
               | some a => a.common_headings
               | none => emptyCommonHeadings }
  | _, _ => none

/-- Modelled from the spec: the Heading Clusterer is not part of `src/`
(only this single UI script is); §4.2 specifies it. Length of the run of
equal characters at the heads of two lists. -/
def runLen : List Char → List Char → Nat
  | x :: xs, y :: ys => if x = y then runLen xs ys + 1 else 0
  | _, _ => 0

/-- Modelled from the spec: the longest matching contiguous block between
`xs` and `ys` as `(start in xs, start in ys, length)`, scanning positions in
order and keeping the first strictly-longest block. -/
def bestBlock (xs ys : List Char) : Nat × Nat × Nat :=
  (List.range xs.length).foldl
    (fun best i =>
      (List.range ys.length).foldl
        (fun best2 j =>
          let l := runLen (xs.drop i) (ys.drop j)
          if l > best2.2.2 then (i, j, l) else best2)
        best)
    (0, 0, 0)

/-- Modelled from the spec: the Ratcliff/Obershelp matching-character count
`M`: take the longest common contiguous block and recurse on the pieces to
its left and to its right. The fuel argument dominates the recursion depth;
`matchTotalOf` supplies more than enough. -/
def matchTotal : Nat → List Char → List Char → Nat
  | 0, _, _ => 0
  | fuel + 1, xs, ys =>
      let b := bestBlock xs ys
      if b.2.2 = 0 then 0
      else
        b.2.2 + matchTotal fuel (xs.take b.1) (ys.take b.2.1) +
          matchTotal fuel (xs.drop (b.1 + b.2.2)) (ys.drop (b.2.1 + b.2.2))

/-- Modelled from the spec: `M` with the fuel filled in. -/
def matchTotalOf (xs ys : List Char) : Nat :=
  matchTotal (xs.length + ys.length + 1) xs ys

/-- Modelled from the spec: the similarity `2*M / T` in `[0, 1]` with `T`
the total length of both strings (1 when both are empty, as
`difflib.SequenceMatcher.ratio` returns). -/
def seqRatio (a b : String) : ℚ :=
  let xs := a.toList
  let ys := b.toList
  if xs.length + ys.length = 0 then 1
  else mkRat (2 * (matchTotalOf xs ys)) (xs.length + ys.length)

/-- Modelled from the spec: a cluster holds its first-seen representative and
its member strings. -/
structure HeadingCluster where
  representative : String
  members : List String

/-- Modelled from the spec: assign `h` to the first cluster (in creation
order) whose representative has case-insensitive similarity at least `t`;
when none qualifies, append a new cluster with `h` as its representative. -/
def assignHeading (t : ℚ) (h : String) : List HeadingCluster → List HeadingCluster
  | [] => [⟨h, [h]⟩]
  | c :: cs =>
      if t ≤ seqRatio (pyLower c.representative) (pyLower h) then
        ⟨c.representative, c.members ++ [h]⟩ :: cs
      else c :: assignHeading t h cs

/-- Modelled from the spec: the greedy single-pass clustering over the pooled
heading texts, threshold `t`. -/
def clusterHeadings (hs : List String) (t : ℚ) : List HeadingCluster :=
  hs.foldl (fun cs h => assignHeading t h cs) []

/-- Modelled from the spec: the Clusterer's output, the representatives in
cluster-creation order. -/
def clusterRepresentatives (hs : List String) (t : ℚ) : List String :=
  (clusterHeadings hs t).map HeadingCluster.representative

/-! ## Theorems -/

/-- The per-level collection loop equals filter-then-strip-then-drop-empties
over the document. -/
theorem collectLevel_eq (lvl : Nat) (doc : List (Nat × String)) :
    collectLevel lvl doc
      = ((doc.filter (fun p => p.1 = lvl)).map (fun p => pyStrip p.2)).filter
          (fun t => t ≠ "") := by
  induction doc with
  | nil => rfl
  | cons p ps ih =>
      simp only [collectLevel, List.filterMap_cons, List.filter_cons] at ih ⊢
      by_cases h1 : p.1 = lvl
      · by_cases h2 : pyStrip p.2 = ""
        · simpa [h1, h2] using ih
        · simpa [h1, h2] using ih
      · simpa [h1] using ih

/-- C1: for every HTML document, the Heading Extractor gathers headings
level-by-level — all level-1 headings first in document order, then level-2,
through level-6 — with each text trimmed and texts empty after trimming
dropped; on an interleaved document the first output heading is the h1 even
though the document starts with an h2, so the output is not a global
document-order merge. -/
theorem headings_grouped_by_level :
    (∀ doc, headingsToList (extract_headings doc) = specGroupedHeadings doc) ∧
    (headingsToList (extract_headings [(2, "B"), (1, "A")])).head? = some (1, "A") ∧
    headingsToList (extract_headings [(1, "  keyword research  "), (1, "   ")])
      = [(1, "keyword research")] := by
  refine ⟨fun doc => ?_, by decide, by decide⟩
  simp [headingsToList, extract_headings, specGroupedHeadings, collectLevel_eq]

/-- Collecting level 1 from a document of `n` nonempty h1 headings keeps all
`n` of them. -/
theorem collectLevel_replicate_one (n : Nat) :
    collectLevel 1 (List.replicate n ((1 : Nat), "x")) = List.replicate n "x" := by
  induction n with
  | zero => rfl
  | succ k ih =>
      rw [List.replicate_succ, List.replicate_succ]
      simp only [collectLevel, List.filterMap_cons] at ih ⊢
      simp [(by decide : pyStrip "x" = "x"), ih]

/-- Collecting any other level from the same document yields nothing. -/
theorem collectLevel_replicate_other (lvl n : Nat) (h : ¬ ((1 : Nat) = lvl)) :
    collectLevel lvl (List.replicate n ((1 : Nat), "x")) = [] := by
  induction n with
  | zero => rfl
  | succ k ih =>
      rw [List.replicate_succ]
      simp only [collectLevel, List.filterMap_cons] at ih ⊢
      simp [h, ih]

/-- A document of `n` nonempty h1 headings extracts to exactly `n` headings. -/
theorem extract_replicate_len (n : Nat) :
    (headingsToList (extract_headings (List.replicate n ((1 : Nat), "x")))).length = n := by
  simp [headingsToList, extract_headings, collectLevel_replicate_one,
    collectLevel_replicate_other 2 n (by omega), collectLevel_replicate_other 3 n (by omega),
    collectLevel_replicate_other 4 n (by omega), collectLevel_replicate_other 5 n (by omega),
    collectLevel_replicate_other 6 n (by omega)]

/-- C7 counterexample: a document with 601 nonempty h1 headings extracts to
601 headings — more than the claimed cap of 600, so no truncation happens. -/
theorem heading_cap_counterexample :
    600 < (headingsToList (extract_headings (List.replicate 601 ((1 : Nat), "x")))).length := by
  rw [extract_replicate_len]
  omega

/-- C7 amended: the extractor applies no cap at all — for every `n`, a
document with `n` nonempty h1 headings yields exactly `n` output headings. -/
theorem heading_extractor_no_cap :
    ∀ n, (headingsToList (extract_headings (List.replicate n ((1 : Nat), "x")))).length = n :=
  extract_replicate_len

/-- One category's inner keyword loop adds to that category's entry one per
keyword occurring in the text, and leaves every other entry unchanged. -/
theorem foldKeywords_apply (text intent : String) (kws : List String)
    (f : String → Nat) (cat : String) :
    (kws.foldl (fun acc kw => if strOccurs kw text then bump acc intent else acc) f) cat
      = f cat + (if cat = intent then kws.countP (fun kw => strOccurs kw text) else 0) := by
  induction kws generalizing f with
  | nil => simp
  | cons k rest ih =>
      rw [List.foldl_cons, ih]
      by_cases hc : cat = intent
      · subst hc
        by_cases hk : strOccurs k text
        · simp [bump, hk, List.countP_cons]
          omega
        · simp [bump, hk, List.countP_cons]
      · by_cases hk : strOccurs k text
        · simp [bump, hk, hc]
        · simp [bump, hk, hc]

/-- The whole category loop of one snippet, over any keyword table: each
table entry contributes its own keyword-occurrence count to its own label. -/
theorem foldPairs_apply (text : String) (pairs : List (String × List String))
    (f : String → Nat) (cat : String) :
    (pairs.foldl
        (fun acc p =>
          p.2.foldl (fun acc2 kw => if strOccurs kw text then bump acc2 p.1 else acc2) acc)
        f) cat
      = f cat + (pairs.map (fun p =>
          if cat = p.1 then p.2.countP (fun kw => strOccurs kw text) else 0)).sum := by
  induction pairs generalizing f with
  | nil => simp
  | cons p rest ih =>
      rw [List.foldl_cons, ih, foldKeywords_apply]
      simp [List.map_cons]
      omega

/-- Scoring one snippet adds, to every category (known or not), the count of
that category's keywords occurring in the snippet text. -/
theorem scoreSnippet_apply (text : String) (f : String → Nat) (cat : String) :
    scoreSnippet text f cat
      = f cat + (keywordsFor cat).countP (fun kw => strOccurs kw text) := by
  rw [scoreSnippet, foldPairs_apply]
  by_cases c1 : cat = "informational"
  · subst c1
    rw [show keywordsFor "informational"
        = ["how to", "what is", "why", "guide", "tutorial", "ways to", "tips", "learn"] from rfl]
    simp [intent_keywords]
  · by_cases c2 : cat = "commercial"
    · subst c2
      rw [show keywordsFor "commercial"
          = ["best", "review", "comparison", "vs", "top", "rating", "buy"] from rfl]
      simp [intent_keywords]
    · by_cases c3 : cat = "transactional"
      · subst c3
        rw [show keywordsFor "transactional"
            = ["buy", "purchase", "order", "deal", "discount", "cheap", "price"] from rfl]
        simp [intent_keywords]
      · by_cases c4 : cat = "navigational"
        · subst c4
          rw [show keywordsFor "navigational"
              = ["login", "signin", "official", "website", "app", "download"] from rfl]
          simp [intent_keywords]
        · have e1 : (("informational" : String) == cat) = false :=
            beq_eq_false_iff_ne.mpr (fun h => c1 h.symm)
          have e2 : (("commercial" : String) == cat) = false :=
            beq_eq_false_iff_ne.mpr (fun h => c2 h.symm)
          have e3 : (("transactional" : String) == cat) = false :=
            beq_eq_false_iff_ne.mpr (fun h => c3 h.symm)
          have e4 : (("navigational" : String) == cat) = false :=
            beq_eq_false_iff_ne.mpr (fun h => c4 h.symm)
          simp [keywordsFor, intent_keywords, List.find?, e1, e2, e3, e4, c1, c2, c3, c4]

/-- The scoring loop over all snippets accumulates the per-snippet counts. -/
theorem intent_scores_fold (results : List OrganicResult) (f : String → Nat) (cat : String) :
    (results.foldl (fun acc r => scoreSnippet (snippetOf r) acc) f) cat
      = f cat + (results.map (fun r =>
          (keywordsFor cat).countP (fun kw => strOccurs kw (snippetOf r)))).sum := by
  induction results generalizing f with
  | nil => simp
  | cons r rest ih =>
      rw [List.foldl_cons, ih, scoreSnippet_apply]
      simp [List.map_cons]
      omega

/-- C2: every category's score equals the number of (snippet, pattern) pairs
in which that category's pattern occurs in the snippet's lowered
title-plus-description text; in particular the single snippet "Best Review"
matches the two commercial patterns "best" and "review" and adds 2 to the
commercial score, not 1. -/
theorem intent_score_double_counts :
    (∀ (sd : SerpData) (cat : String),
        (analyze_search_intent (some sd)).map (fun a => a.intent_scores cat)
          = some ((sd.organic_results.map (fun r =>
              (keywordsFor cat).countP (fun kw => strOccurs kw (snippetOf r)))).sum)) ∧
    intent_scores_of [⟨"Best Review", "", "", 0⟩] "commercial" = 2 := by
  constructor
  · intro sd cat
    have h := intent_scores_fold sd.organic_results (fun _ => 0) cat
    simpa [analyze_search_intent, intent_scores_of] using h
  · decide

/-- Python's `max` over the fixed category order picks the first category
attaining the maximal score: it equals the spec's first-maximum rule. -/
theorem pythonMax_eq_specFirstMax (val : String → Nat) :
    pythonMax intentOrder val = specFirstMax val := by
  simp only [pythonMax, intentOrder, specFirstMax, List.foldl_cons, List.foldl_nil]
  split_ifs <;> first | rfl | (exfalso; omega)

/-- C3: with no organic results every category's score is zero and the
dominant intent is "informational"; in general the dominant intent is the
first category, in the fixed order informational, commercial, transactional,
navigational, whose score is at least every other score. -/
theorem intent_empty_and_tiebreak :
    (∀ cat, intent_scores_of [] cat = 0) ∧
    dominant_intent_of [] = "informational" ∧
    (∀ k paa, (analyze_search_intent (some ⟨k, [], paa⟩)).map
        (fun a => a.dominant_intent) = some "informational") ∧
    (∀ results, dominant_intent_of results = specFirstMax (intent_scores_of results)) :=
  ⟨fun _ => rfl, rfl, fun _ _ => rfl, fun _ => pythonMax_eq_specFirstMax _⟩

/-- C4 counterexample: for the keyword "seo", dominant intent
"informational" and no common title words, the code produces
"Ultimate Guide to seo: Everything You Need to Know", not the claimed
"seo: Complete Guide". -/
theorem title_formula_counterexample :
    _generate_title_suggestion "seo" ⟨"informational", fun _ => 0, [], [], [], []⟩
      = "Ultimate Guide to seo: Everything You Need to Know" ∧
    (("Ultimate Guide to seo: Everything You Need to Know" : String) == "seo: Complete Guide")
      = false := by
  decide

/-- With no common title words the title is the power word, " Guide to ",
the keyword and ": Everything You Need to Know". -/
theorem title_of_empty_common (kw : String) (ia : IntentAnalysis)
    (h : ia.common_title_words = []) :
    _generate_title_suggestion kw ia
      = powerWordOf ia.dominant_intent ++ " Guide to " ++ kw ++
          ": Everything You Need to Know" := by
  simp [_generate_title_suggestion, h]

/-- An unrecognized dominant-intent label falls back to the power word
"Guide". -/
theorem powerWordOf_unknown (d : String) (h : d ∉ intentOrder) : powerWordOf d = "Guide" := by
  simp only [intentOrder, List.mem_cons, List.not_mem_nil, or_false] at h
  push_neg at h
  have e1 : (("informational" : String) == d) = false :=
    beq_eq_false_iff_ne.mpr (fun hh => h.1 hh.symm)
  have e2 : (("commercial" : String) == d) = false :=
    beq_eq_false_iff_ne.mpr (fun hh => h.2.1 hh.symm)
  have e3 : (("transactional" : String) == d) = false :=
    beq_eq_false_iff_ne.mpr (fun hh => h.2.2.1 hh.symm)
  have e4 : (("navigational" : String) == d) = false :=
    beq_eq_false_iff_ne.mpr (fun hh => h.2.2.2 hh.symm)
  simp [powerWordOf, power_words, List.find?, e1, e2, e3, e4]

/-- C4 amended: with no common title words, the suggested title is
"{power} Guide to {keyword}: Everything You Need to Know" where power is
Ultimate / Best / Buy / Official for the four known labels and "Guide" for
any unrecognized label. -/
theorem title_formula_amended :
    ∀ (kw : String) (ia : IntentAnalysis), ia.common_title_words = [] →
      ((ia.dominant_intent = "informational" →
          _generate_title_suggestion kw ia
            = "Ultimate Guide to " ++ kw ++ ": Everything You Need to Know") ∧
       (ia.dominant_intent = "commercial" →
          _generate_title_suggestion kw ia
            = "Best Guide to " ++ kw ++ ": Everything You Need to Know") ∧
       (ia.dominant_intent = "transactional" →
          _generate_title_suggestion kw ia
            = "Buy Guide to " ++ kw ++ ": Everything You Need to Know") ∧
       (ia.dominant_intent = "navigational" →
          _generate_title_suggestion kw ia
            = "Official Guide to " ++ kw ++ ": Everything You Need to Know") ∧
       (ia.dominant_intent ∉ intentOrder →
          _generate_title_suggestion kw ia
            = "Guide Guide to " ++ kw ++ ": Everything You Need to Know")) := by
  intro kw ia hctw
  refine ⟨fun hd => ?_, fun hd => ?_, fun hd => ?_, fun hd => ?_, fun hd => ?_⟩
  · rw [title_of_empty_common kw ia hctw, hd,
      show powerWordOf "informational" = "Ultimate" from rfl,
      show ("Ultimate" : String) ++ " Guide to " = "Ultimate Guide to " from by decide]
  · rw [title_of_empty_common kw ia hctw, hd,
      show powerWordOf "commercial" = "Best" from rfl,
      show ("Best" : String) ++ " Guide to " = "Best Guide to " from by decide]
  · rw [title_of_empty_common kw ia hctw, hd,
      show powerWordOf "transactional" = "Buy" from rfl,
      show ("Buy" : String) ++ " Guide to " = "Buy Guide to " from by decide]
  · rw [title_of_empty_common kw ia hctw, hd,
      show powerWordOf "navigational" = "Official" from rfl,
      show ("Official" : String) ++ " Guide to " = "Official Guide to " from by decide]
  · rw [title_of_empty_common kw ia hctw, powerWordOf_unknown ia.dominant_intent hd,
      show ("Guide" : String) ++ " Guide to " = "Guide Guide to " from by decide]

/-- C4 witness: the amended formula evaluated at keyword "seo" with
dominant intent "informational" and no common title words. -/
theorem title_formula_amended_witness :
    _generate_title_suggestion "seo" ⟨"informational", fun _ => 0, [], [], [], []⟩
      = "Ultimate Guide to " ++ "seo" ++ ": Everything You Need to Know" :=
  (title_formula_amended "seo" ⟨"informational", fun _ => 0, [], [], [], []⟩ rfl).1 rfl

/-- C5 counterexample: six PAA questions produce only the first five entries
(the cap is 5, not 15), the section is headed "Frequently Asked Questions"
(not "People Also Ask"), and an empty PAA list still produces the section,
with an empty question list. -/
theorem faq_section_counterexample :
    (_generate_faq_section ["q1", "q2", "q3", "q4", "q5", "q6"]).questions.map
        FaqEntry.question = ["q1", "q2", "q3", "q4", "q5"] ∧
    ((["q1", "q2", "q3", "q4", "q5"] : List String) == ["q1", "q2", "q3", "q4", "q5", "q6"])
      = false ∧
    (_generate_faq_section ["q1", "q2", "q3", "q4", "q5", "q6"]).h2
      = "Frequently Asked Questions" ∧
    ((("Frequently Asked Questions" : String) == "People Also Ask") = false) ∧
    _generate_faq_section [] = ⟨"Frequently Asked Questions", []⟩ := by
  decide

/-- Reading the question back out of the built FAQ entries recovers the
question list. -/
theorem faqEntries_map_question (l : List String) :
    ((l.map (fun q =>
        (⟨q,
          "Provide a comprehensive answer to this question based on research and expertise."⟩
          : FaqEntry))).map FaqEntry.question) = l := by
  induction l with
  | nil => rfl
  | cons x xs ih => simp only [List.map_cons]; rw [ih]

/-- C5 amended: the FAQ section is always produced with the heading
"Frequently Asked Questions"; its entries are the first 5 caller-supplied
PAA questions, in their original order (all of them when fewer than 5, none
when the list is empty). -/
theorem faq_section_amended :
    ∀ paa : List String,
      (_generate_faq_section paa).h2 = "Frequently Asked Questions" ∧
      (_generate_faq_section paa).questions.map FaqEntry.question = paa.take 5 := by
  intro paa
  cases paa with
  | nil => exact ⟨rfl, rfl⟩
  | cons q qs => exact ⟨rfl, faqEntries_map_question ((q :: qs).take 5)⟩

/-- C8: the suggested meta description never exceeds 160 characters: it is
the intent-keyed template itself, or — when the template expands past 160
characters — its first 157 characters with a trailing "..." appended. -/
theorem meta_description_bounded :
    ∀ (kw : String) (ia : IntentAnalysis),
      (_generate_meta_description_suggestion kw ia).length ≤ 160 ∧
      (_generate_meta_description_suggestion kw ia = metaTemplate kw ia ∨
        _generate_meta_description_suggestion kw ia
          = String.mk ((metaTemplate kw ia).data.take 157) ++ "...") := by
  intro kw ia
  simp only [_generate_meta_description_suggestion]
  by_cases h : (metaTemplate kw ia).length > 160
  · rw [if_pos h]
    constructor
    · have hx : (String.mk ((metaTemplate kw ia).data.take 157)).length
          = ((metaTemplate kw ia).data.take 157).length := rfl
      rw [String.length_append, hx, List.length_take,
        show ("..." : String).length = 3 from rfl]
      have h2 : 160 < (metaTemplate kw ia).data.length := h
      omega
    · right
      rfl
  · rw [if_neg h]
    exact ⟨by omega, Or.inl rfl⟩

/-- The competitor-page loop is a map over the organic results. -/
theorem competitor_fold_eq_map (l : List OrganicResult)
    (fetch : String → Except String (List (Nat × String)))
    (acc : List (String × HeadingsByLevel)) :
    l.foldl (fun a r => a ++ [(r.url, extract_headings_from_url (fetch r.url))]) acc
      = acc ++ l.map (fun r => (r.url, extract_headings_from_url (fetch r.url))) := by
  induction l generalizing acc with
  | nil => simp
  | cons r rest ih => rw [List.foldl_cons, ih]; simp

/-- C9: a fetch or parse failure for one page is isolated and non-fatal:
that page's extraction returns the empty heading dict, and the run still
produces one entry per organic result, each page extracted independently of
the others' outcomes. -/
theorem per_page_failure_isolated :
    (∀ (sd : SerpData) (fetch : String → Except String (List (Nat × String))),
        extract_competitor_headings (some sd) fetch
          = some (sd.organic_results.map
              (fun r => (r.url, extract_headings_from_url (fetch r.url))))) ∧
    (∀ err : String, extract_headings_from_url (Except.error err) = emptyHeadings) := by
  constructor
  · intro sd fetch
    simp [extract_competitor_headings, competitor_fold_eq_map]
  · intro err
    rfl

/-- C10: falsy SERP data short-circuits: `analyze_search_intent` and
`extract_competitor_headings` return `None` on falsy input, and
`generate_content_brief` returns `None` whenever `serp_data` or
`intent_analysis` is falsy — no partial brief is produced. -/
theorem falsy_serp_guards :
    analyze_search_intent none = none ∧
    (∀ fetch, extract_competitor_headings none fetch = none) ∧
    (∀ (kw : String) (ia : Option IntentAnalysis) (ha : Option HeadingsAnalysis),
        generate_content_brief kw none ia ha = none) ∧
    (∀ (kw : String) (sd : SerpData) (ha : Option HeadingsAnalysis),
        generate_content_brief kw (some sd) none ha = none) := by
  refine ⟨rfl, fun _ => rfl, fun kw ia ha => ?_, fun kw sd ha => rfl⟩
  cases ia <;> rfl

/-- Assigning one heading grows the cluster list by at most one. -/
theorem assignHeading_length (t : ℚ) (h : String) (cs : List HeadingCluster) :
    (assignHeading t h cs).length ≤ cs.length + 1 := by
  induction cs with
  | nil => simp [assignHeading]
  | cons c rest ih =>
      simp only [assignHeading]
      by_cases hc : t ≤ seqRatio (pyLower c.representative) (pyLower h)
      · rw [if_pos hc]
        simp
      · rw [if_neg hc]
        simp only [List.length_cons] at *
        omega

/-- The clustering fold grows the cluster list by at most one per heading. -/
theorem clusterFold_length (t : ℚ) (hs : List String) (cs : List HeadingCluster) :
    (hs.foldl (fun a h => assignHeading t h a) cs).length ≤ cs.length + hs.length := by
  induction hs generalizing cs with
  | nil => simp
  | cons h rest ih =>
      rw [List.foldl_cons]
      have h1 := ih (assignHeading t h cs)
      have h2 := assignHeading_length t h cs
      simp only [List.length_cons] at *
      omega

/-- C6 counterexample: on the fixed input ["cd", "cccddd", "ccc", "ddd"],
raising the threshold from 1/2 to 3/5 DECREASES the cluster count from 3 to
2: at 1/2 the string "cccddd" joins the cluster of "cd" (similarity exactly
1/2) and "ccc", "ddd" each open their own cluster; at 3/5 "cccddd" opens its
own cluster and then absorbs both "ccc" and "ddd" (similarity 2/3 each). -/
theorem cluster_monotonicity_counterexample :
    (mkRat 1 2 < mkRat 3 5) ∧
    (clusterRepresentatives ["cd", "cccddd", "ccc", "ddd"] (mkRat 1 2)).length = 3 ∧
    (clusterRepresentatives ["cd", "cccddd", "ccc", "ddd"] (mkRat 3 5)).length = 2 := by
  refine ⟨by decide, by decide, by decide⟩

/-- C6 amended: the cluster count is not monotone in the threshold (see the
counterexample); what does hold for every fixed input and every threshold is
that the greedy pass creates at most one cluster per input heading, so the
cluster count never exceeds the number of input headings. -/
theorem cluster_count_bounded :
    ∀ (hs : List String) (t : ℚ), (clusterRepresentatives hs t).length ≤ hs.length := by
  intro hs t
  have h := clusterFold_length t hs []
  simpa [clusterRepresentatives, clusterHeadings] using h

end SeoApp
